import Mathlib

/-!
Verification of the TFS transfer pipeline.

This file gives a shallow embedding of the transfer-queue core of the TFS
kernel module (the module source embedded in test.sh: tfs_file_write,
tfs_ioctl with TFS_GET_XFER_COUNT / TFS_GET_XFER_INFO / TFS_RELEASE_XFER,
tfs_mmap) together with the size-clamping policy of the user-space consumer
daemon (tfsd.cpp), and proves or refutes the specification claims about
the pipeline.

Modelling conventions:
- Machine integers are Nat/Int; errno returns are the C values negated.
- Kernel pages are identified by abstract ids (Nat); each successful
  pin/allocation draws a fresh id from a counter.  The per-page reference
  count models exactly the references attributable to this subsystem:
  it starts at 0 and get_user_pages_fast / alloc_page contribute +1.
- Environment flags (WriteEnv) stand for the outcomes of the fallible
  kernel services the code calls (kzalloc, access_ok, get_user_pages_fast,
  alloc_page, copy_from_user); the code's control flow branches on them
  exactly where the C code checks the corresponding return values.
- The consumer's address-space exposures created by remap_pfn_range
  (one vma per successful tfs_mmap) are tracked in mappedVmas.  The module
  installs no vm_ops, and munmap of a VM_PFNMAP region does not touch page
  reference counts, so vm_munmap only removes the vma entry.
-/

namespace TFS

/-- Page size in bytes; the module targets 4 KiB pages (PAGE_SHIFT_4K = 12). -/
def PAGE_SIZE : Nat := 4096

/-- Declared maximum queue size (test.sh line 258); never consulted by any
operation of the module. -/
def MAX_QUEUE_SIZE : Nat := 128

/-- errno: out of memory. -/
def ENOMEM : Int := 12

/-- errno: bad address / fault crossing the privilege boundary. -/
def EFAULT : Int := 14

/-- errno: invalid argument. -/
def EINVAL : Int := 22

/-- errno: no data available. -/
def ENODATA : Int := 61

/-- One transfer item (struct tfs_xfer): an optional backing page (none for
the zero-length marker items), the file offset, the payload size and the
page frame number recorded for diagnostics. -/
structure tfs_xfer where
  page : Option Nat
  offset : Int
  size : Nat
  pfn : Nat
deriving Repr, DecidableEq

/-- Metadata snapshot returned by TFS_GET_XFER_INFO (struct tfs_xfer_info). -/
structure tfs_xfer_info where
  offset : Int
  size : Nat
  pfn : Nat
deriving Repr, DecidableEq

/-- Global module state (struct tfs_data together with the page reference
counts and the consumer-side vma exposures).  xfer_list's list head is the
oldest enqueued item. -/
structure TfsState where
  xfer_list : List tfs_xfer
  refcnt : Nat → Nat
  nextPage : Nat
  current_xfer : Option tfs_xfer
  mappedVmas : List Nat

/-- get_page: increment the reference count of page p. -/
def bumpRef (f : Nat → Nat) (p : Nat) : Nat → Nat :=
  fun q => if q = p then f q + 1 else f q

/-- put_page: decrement the reference count of page p. -/
def dropRef (f : Nat → Nat) (p : Nat) : Nat → Nat :=
  fun q => if q = p then f q - 1 else f q

/-- Outcomes of the fallible kernel services invoked by tfs_file_write,
plus the process-wide enable_zero_copy policy flag. -/
structure WriteEnv where
  xferAllocOk : Bool
  accessOk : Bool
  enable_zero_copy : Bool
  pinRet : Int
  pageAllocOk : Bool
  copyOk : Bool
deriving Repr, DecidableEq

/-- Result of tfs_file_write: the new module state, the ssize_t return
value, the updated file position, and whether the readiness condition was
signalled (wake_up_interruptible). -/
structure WriteOut where
  st : TfsState
  ret : Int
  pposNew : Int
  signaled : Bool

/-- Length accepted by the non-zero write path (test.sh lines 421-429):
the count is first capped at PAGE_SIZE, then truncated at the boundary of
the single page containing the user buffer. -/
def clampLen (ubuf count : Nat) : Nat :=
  if ubuf % PAGE_SIZE + min count PAGE_SIZE > PAGE_SIZE then
    PAGE_SIZE - ubuf % PAGE_SIZE
  else
    min count PAGE_SIZE

/-- tfs_file_write (test.sh lines 361-492).  A zero count enqueues a marker
item and returns 0; otherwise the buffer is validated, the length clamped,
a transfer structure allocated, the backing page pinned (zero-copy mode) or
allocated and filled (fallback mode), and the item appended to the tail of
the queue.  Every failure returns a negative errno with the state intact.
In the fallback branch the C code sets ret = 1 after a successful copy, so
its subsequent ret checks cannot fire there. -/
def tfs_file_write (st : TfsState) (ubuf count : Nat) (ppos : Int)
    (env : WriteEnv) : WriteOut :=
  if count = 0 then
    if env.xferAllocOk = false then ⟨st, -ENOMEM, ppos, false⟩
    else
      ⟨{ st with xfer_list := st.xfer_list ++ [⟨none, ppos, 0, 0⟩] },
        0, ppos, true⟩
  else if env.accessOk = false then ⟨st, -EFAULT, ppos, false⟩
  else if env.xferAllocOk = false then ⟨st, -ENOMEM, ppos, false⟩
  else if env.enable_zero_copy = true then
    if env.pinRet < 0 then ⟨st, env.pinRet, ppos, false⟩
    else if env.pinRet ≠ 1 then ⟨st, -EFAULT, ppos, false⟩
    else
      ⟨{ st with
          xfer_list := st.xfer_list ++
            [⟨some st.nextPage, ppos, clampLen ubuf count, st.nextPage⟩],
          refcnt := bumpRef st.refcnt st.nextPage,
          nextPage := st.nextPage + 1 },
        (clampLen ubuf count : Int), ppos + (clampLen ubuf count : Int), true⟩
  else
    if env.pageAllocOk = false then ⟨st, -ENOMEM, ppos, false⟩
    else if env.copyOk = false then ⟨st, -EFAULT, ppos, false⟩
    else
      ⟨{ st with
          xfer_list := st.xfer_list ++
            [⟨some st.nextPage, ppos, clampLen ubuf count, st.nextPage⟩],
          refcnt := bumpRef st.refcnt st.nextPage,
          nextPage := st.nextPage + 1 },
        (clampLen ubuf count : Int), ppos + (clampLen ubuf count : Int), true⟩

/-- TFS_GET_XFER_COUNT (test.sh lines 815-829): counts the queued items and
copies the count to the user pointer; a null argument is EINVAL and a
failing copy_to_user is EFAULT.  The state is never modified. -/
def tfs_get_xfer_count (st : TfsState) (argValid copyOk : Bool) :
    TfsState × Int × Option Nat :=
  if argValid = false then (st, -EINVAL, none)
  else if copyOk = false then (st, -EFAULT, none)
  else (st, 0, some st.xfer_list.length)

/-- TFS_GET_XFER_INFO (test.sh lines 831-858): a null argument is EINVAL;
on an empty queue the result is ENODATA; otherwise the head item's
{offset, size, pfn} snapshot is copied out (EFAULT if the copy fails).
The queue is never modified and no memory access is granted. -/
def tfs_get_xfer_info (st : TfsState) (argValid copyOk : Bool) :
    TfsState × Int × Option tfs_xfer_info :=
  if argValid = false then (st, -EINVAL, none)
  else
    match st.xfer_list with
    | [] => (st, -ENODATA, none)
    | x :: _ =>
      if copyOk = false then (st, -EFAULT, none)
      else (st, 0, some ⟨x.offset, x.size, x.pfn⟩)

/-- TFS_RELEASE_XFER (test.sh lines 860-872): removes exactly the head item
(if any), drops the queue's reference on its backing page, and frees the
item.  Always returns 0; the current_xfer pointer and the consumer's
exposures are not touched. -/
def tfs_release_xfer (st : TfsState) : TfsState × Int :=
  match st.xfer_list with
  | [] => (st, 0)
  | x :: rest =>
    (⟨rest,
      (match x.page with
       | some pid => dropRef st.refcnt pid
       | none => st.refcnt),
      st.nextPage, st.current_xfer, st.mappedVmas⟩, 0)

/-- tfs_mmap (test.sh lines 880-952).  vsize is the size of the requesting
vma; request sizes of zero or beyond one page are EINVAL, as is an empty
queue.  A marker head (no backing page) returns success without creating
any mapping.  Otherwise the head page's reference count is bumped
(get_page) and the page is exposed; remapRet is the remap_pfn_range return
value, and a non-zero remapRet drops the speculative reference again
(put_page) and is surfaced, leaving the queue untouched.  The in-C null
check on the list_first_entry result is unreachable and not modelled. -/
def tfs_mmap (st : TfsState) (vsize : Nat) (remapRet : Int) :
    TfsState × Int :=
  if vsize = 0 ∨ PAGE_SIZE < vsize then (st, -EINVAL)
  else
    match st.xfer_list with
    | [] => (st, -EINVAL)
    | x :: _ =>
      match x.page with
      | none => (st, 0)
      | some pid =>
        if remapRet ≠ 0 then
          ({ st with refcnt := dropRef (bumpRef st.refcnt pid) pid },
            remapRet)
        else
          ({ st with
              refcnt := bumpRef st.refcnt pid,
              current_xfer := some x,
              mappedVmas := pid :: st.mappedVmas }, 0)

/-- munmap of the consumer's vma exposing page pid.  The module registers
no vm_ops and remap_pfn_range areas are VM_PFNMAP, so tearing the vma down
removes the exposure without touching any page reference count. -/
def vm_munmap (st : TfsState) (pid : Nat) : TfsState :=
  { st with mappedVmas := st.mappedVmas.erase pid }

/-- Size actually requested by the daemon's mmap call (tfsd.cpp lines
364-372): the head size clamped to the 100 MB policy ceiling. -/
def daemonMapSize (s : Nat) : Nat := min s (100 * 1024 * 1024)

/-- The kernel rounds a vma up to whole pages; the vma handed to tfs_mmap
for an n-byte request spans pageAlign n bytes. -/
def pageAlign (n : Nat) : Nat := (n + PAGE_SIZE - 1) / PAGE_SIZE * PAGE_SIZE

/-- One consumer mapping attempt end to end: the daemon clamps the head
item's size to its ceiling and issues mmap, which the kernel serves with a
page-aligned vma of that length (tfsd.cpp lines 364-372 composed with
tfs_mmap). -/
def tfsd_map_attempt (st : TfsState) (remapRet : Int) : TfsState × Int :=
  match st.xfer_list.head? with
  | none => (st, -EINVAL)
  | some x => tfs_mmap st (pageAlign (daemonMapSize x.size)) remapRet

/-- A write invocation in which every fallible kernel service succeeds:
the buffer is accessible, the transfer structure is allocated, and the
page pin (zero-copy mode) resp. page allocation and copy (fallback mode)
go through. -/
def envOk (env : WriteEnv) : Prop :=
  env.accessOk = true ∧ env.xferAllocOk = true ∧
    (env.enable_zero_copy = true → env.pinRet = 1) ∧
    (env.enable_zero_copy = false → env.pageAllocOk = true ∧ env.copyOk = true)

instance (env : WriteEnv) : Decidable (envOk env) := by
  unfold envOk; infer_instance

/-- The item a successful write of (ubuf, count, ppos) appends, given that
the next fresh page id is n: a marker for count = 0, otherwise an item
backed by page n whose size is the clamped length. -/
def expectedItem (n ubuf count : Nat) (ppos : Int) : tfs_xfer :=
  if count = 0 then ⟨none, ppos, 0, 0⟩
  else ⟨some n, ppos, clampLen ubuf count, n⟩

/-- Sequential composition of writes, one per (ubuf, count, ppos) triple;
enqueue order is the order of this list, which models the order in which
the producers' critical sections committed. -/
def writeSeq : TfsState → List (Nat × Nat × Int) → WriteEnv → TfsState
  | st, [], _ => st
  | st, (u, c, p) :: ws, env => writeSeq (tfs_file_write st u c p env).st ws env

/-- The items a sequence of successful writes appends, in order, starting
from fresh page id n. -/
def expectedItems : Nat → List (Nat × Nat × Int) → List tfs_xfer
  | _, [] => []
  | n, (u, c, p) :: ws =>
    expectedItem n u c p :: expectedItems (if c = 0 then n else n + 1) ws

/-- Metadata snapshot of an item as TFS_GET_XFER_INFO reports it. -/
def xferInfoOf (x : tfs_xfer) : tfs_xfer_info := ⟨x.offset, x.size, x.pfn⟩

/-- The consumer loop's observation of n items: n rounds of a peek
(TFS_GET_XFER_INFO with valid argument and successful copy) followed by a
release (TFS_RELEASE_XFER), collecting the peeked snapshots. -/
def drain : TfsState → Nat → List (Option tfs_xfer_info)
  | _, 0 => []
  | st, n + 1 =>
    (tfs_get_xfer_info st true true).2.2 ::
      drain (tfs_release_xfer (tfs_get_xfer_info st true true).1).1 n

/-- The environment of a write whose zero-copy pin succeeds. -/
def envZC : WriteEnv := ⟨true, true, true, 1, true, true⟩

/-- Module state right after tfs_init: empty queue, no references, no
mapping session, no exposures. -/
def st0 : TfsState := ⟨[], fun _ => 0, 0, none, []⟩

/-! ## Shape of a successful write -/

/-- Full description of tfs_file_write when every service succeeds: the
expected item is appended at the tail, the reference count of the fresh
backing page (if any) becomes one higher, the readiness condition is
signalled, and the clamped length is returned and added to the position. -/
theorem tfs_file_write_success (st : TfsState) (ubuf count : Nat)
    (ppos : Int) (env : WriteEnv) (h : envOk env) :
    tfs_file_write st ubuf count ppos env =
      ⟨{ st with
          xfer_list := st.xfer_list ++ [expectedItem st.nextPage ubuf count ppos],
          refcnt := if count = 0 then st.refcnt
            else bumpRef st.refcnt st.nextPage,
          nextPage := if count = 0 then st.nextPage else st.nextPage + 1 },
        if count = 0 then 0 else (clampLen ubuf count : Int),
        if count = 0 then ppos else ppos + (clampLen ubuf count : Int),
        true⟩ := by
  obtain ⟨hacc, halloc, hzc, hfb⟩ := h
  by_cases hc : count = 0
  · simp [tfs_file_write, expectedItem, hc, halloc]
  · cases hzcflag : env.enable_zero_copy with
    | true =>
      have hpin := hzc hzcflag
      simp [tfs_file_write, expectedItem, hc, hacc, halloc, hzcflag, hpin]
    | false =>
      obtain ⟨hpa, hcp⟩ := hfb hzcflag
      simp [tfs_file_write, expectedItem, hc, hacc, halloc, hzcflag, hpa, hcp]

/-- The two clamping steps of the write path amount to truncating the
count to what remains of the single page holding the user buffer. -/
theorem clampLen_eq (ubuf count : Nat) :
    clampLen ubuf count = min count (PAGE_SIZE - ubuf % PAGE_SIZE) := by
  have h : ubuf % PAGE_SIZE < PAGE_SIZE := Nat.mod_lt _ (by decide)
  unfold clampLen
  unfold PAGE_SIZE at *
  split <;> omega

/-- A sequence of successful writes appends exactly the expected items, in
enqueue order, at the tail of the queue. -/
theorem writeSeq_shape (env : WriteEnv) (h : envOk env) :
    ∀ (ws : List (Nat × Nat × Int)) (st : TfsState),
      (writeSeq st ws env).xfer_list =
        st.xfer_list ++ expectedItems st.nextPage ws := by
  intro ws
  induction ws with
  | nil => intro st; simp [writeSeq, expectedItems]
  | cons w ws ih =>
    intro st
    obtain ⟨u, c, p⟩ := w
    rw [writeSeq, tfs_file_write_success st u c p env h]
    rw [ih]
    simp [expectedItems]

/-- Each round of the sequence has one expected item. -/
theorem expectedItems_length (ws : List (Nat × Nat × Int)) :
    ∀ n, (expectedItems n ws).length = ws.length := by
  induction ws with
  | nil => intro n; simp [expectedItems]
  | cons w ws ih =>
    intro n
    obtain ⟨u, c, p⟩ := w
    simp [expectedItems, ih]

/-- TFS_RELEASE_XFER removes exactly the head item. -/
theorem tfs_release_xfer_tail (st : TfsState) :
    (tfs_release_xfer st).1.xfer_list = st.xfer_list.tail := by
  cases hl : st.xfer_list <;> simp [tfs_release_xfer, hl]

/-- Draining n items from a queue holding at least n observes the first
n items' snapshots in queue order. -/
theorem drain_eq : ∀ (n : Nat) (st : TfsState), n ≤ st.xfer_list.length →
    drain st n = (st.xfer_list.take n).map (fun x => some (xferInfoOf x)) := by
  intro n
  induction n with
  | zero => intro st _; simp [drain]
  | succ n ih =>
    intro st h
    cases hl : st.xfer_list with
    | nil => rw [hl] at h; simp at h
    | cons x xs =>
      rw [hl] at h
      have hx : tfs_get_xfer_info st true true = (st, 0, some (xferInfoOf x)) := by
        simp [tfs_get_xfer_info, hl, xferInfoOf]
      have hr : (tfs_release_xfer st).1.xfer_list = xs := by
        rw [tfs_release_xfer_tail, hl]; rfl
      rw [drain, hx]
      have hn : n ≤ ((tfs_release_xfer st).1).xfer_list.length := by
        rw [hr]; simpa using Nat.le_of_succ_le_succ h
      rw [ih _ hn, hr]
      simp

/-! ## Claims -/

/-- C1: the claim says the backing-memory reference count moves +1 at
creation, +1 at map, -1 at unmap, -1 at release and reaches zero exactly
when release completes, so a full enqueue-map-unmap-release cycle leaves
the resource snapshot unchanged.  The code violates this: the reference
taken by get_page in tfs_mmap is never dropped on the consume path (the
module installs no vm_ops, so the consumer's munmap tears down the vma
without touching the count, and TFS_RELEASE_XFER puts the page exactly
once).  Evaluating a full successful cycle on a 5-byte write shows every
step succeeding, the exposure gone after munmap, the queue empty after
release, yet one reference to the backing page still outstanding. -/
theorem C1_full_cycle_leaks_reference :
    (tfs_file_write st0 0 5 0 envZC).ret = 5 ∧
    (tfs_mmap (tfs_file_write st0 0 5 0 envZC).st
      (pageAlign (daemonMapSize 5)) 0).2 = 0 ∧
    (vm_munmap (tfs_mmap (tfs_file_write st0 0 5 0 envZC).st
      (pageAlign (daemonMapSize 5)) 0).1 0).mappedVmas = [] ∧
    (tfs_release_xfer (vm_munmap (tfs_mmap (tfs_file_write st0 0 5 0 envZC).st
      (pageAlign (daemonMapSize 5)) 0).1 0)).2 = 0 ∧
    (tfs_release_xfer (vm_munmap (tfs_mmap (tfs_file_write st0 0 5 0 envZC).st
      (pageAlign (daemonMapSize 5)) 0).1 0)).1.xfer_list = [] ∧
    (tfs_release_xfer (vm_munmap (tfs_mmap (tfs_file_write st0 0 5 0 envZC).st
      (pageAlign (daemonMapSize 5)) 0).1 0)).1.refcnt 0 = 1 := by
  decide

/-- C2: a zero-length write enqueues exactly one marker item (size 0, no
backing page), signals readiness and returns 0; mapping that head item is
a success without any mapping or state change, and releasing it succeeds
and shrinks the count by one. -/
theorem C2_zero_length_write (st : TfsState) (ubuf : Nat) (ppos : Int)
    (env : WriteEnv) (halloc : env.xferAllocOk = true)
    (hempty : st.xfer_list = []) (vsize : Nat) (rr : Int)
    (hv1 : vsize ≠ 0) (hv2 : vsize ≤ PAGE_SIZE) :
    (tfs_file_write st ubuf 0 ppos env).ret = 0 ∧
    (tfs_file_write st ubuf 0 ppos env).signaled = true ∧
    (tfs_file_write st ubuf 0 ppos env).st.xfer_list = [⟨none, ppos, 0, 0⟩] ∧
    tfs_mmap (tfs_file_write st ubuf 0 ppos env).st vsize rr
      = ((tfs_file_write st ubuf 0 ppos env).st, 0) ∧
    (tfs_release_xfer (tfs_file_write st ubuf 0 ppos env).st).2 = 0 ∧
    (tfs_release_xfer (tfs_file_write st ubuf 0 ppos env).st).1.xfer_list.length + 1
      = (tfs_file_write st ubuf 0 ppos env).st.xfer_list.length := by
  have hw : tfs_file_write st ubuf 0 ppos env =
      ⟨{ st with xfer_list := st.xfer_list ++ [⟨none, ppos, 0, 0⟩] },
        0, ppos, true⟩ := by
    simp [tfs_file_write, halloc]
  rw [hw]
  have h2 : ¬ PAGE_SIZE < vsize := not_lt.mpr hv2
  simp [hempty, tfs_mmap, tfs_release_xfer, hv1, h2]

/-- C2 witness: the zero-length scenario evaluated at offset 7 from the
pristine state. -/
theorem C2_zero_length_write_witness :
    (tfs_file_write st0 3 0 7 envZC).st.xfer_list = [⟨none, 7, 0, 0⟩] ∧
    tfs_mmap (tfs_file_write st0 3 0 7 envZC).st PAGE_SIZE 0
      = ((tfs_file_write st0 3 0 7 envZC).st, 0) := by
  have h := C2_zero_length_write st0 3 7 envZC rfl rfl PAGE_SIZE 0
    (by decide) (by decide)
  exact ⟨h.2.2.1, h.2.2.2.1⟩

/-- C3: strict FIFO.  Release removes exactly the head, and a run of N
successful writes followed by N (peek, release) rounds observes the items
in exactly the order the writes committed. -/
theorem C3_fifo_order (st : TfsState) (ws : List (Nat × Nat × Int))
    (env : WriteEnv) (henv : envOk env) (hempty : st.xfer_list = []) :
    drain (writeSeq st ws env) ws.length
      = (expectedItems st.nextPage ws).map (fun x => some (xferInfoOf x)) ∧
    ∀ st2 : TfsState, (tfs_release_xfer st2).1.xfer_list = st2.xfer_list.tail := by
  constructor
  · have hshape := writeSeq_shape env henv ws st
    rw [hempty, List.nil_append] at hshape
    have hlen : ws.length ≤ (writeSeq st ws env).xfer_list.length := by
      rw [hshape, expectedItems_length]
    rw [drain_eq ws.length _ hlen, hshape,
      show ws.length = (expectedItems st.nextPage ws).length from
        (expectedItems_length ws st.nextPage).symm,
      List.take_length]
  · exact tfs_release_xfer_tail

/-- C3 witness: three writes (two payloads, one marker) drained in commit
order from the pristine state. -/
theorem C3_fifo_order_witness :
    drain (writeSeq st0 [(0, 5, 0), (0, 3, 5), (4096, 0, 8)] envZC) 3
      = [some ⟨0, 5, 0⟩, some ⟨5, 3, 1⟩, some ⟨8, 0, 0⟩] := by
  have h := C3_fifo_order st0 [(0, 5, 0), (0, 3, 5), (4096, 0, 8)] envZC
    (by decide) rfl
  exact h.1.trans (by decide)

/-- C4: every successful non-zero write accepts exactly the length clamped
to the remaining capacity of the buffer's page, reports that truncated
length back as a non-negative (success) return, and enqueues an item of
that size. -/
theorem C4_write_clamps_to_unit (st : TfsState) (ubuf count : Nat)
    (ppos : Int) (env : WriteEnv) (hc : 0 < count) (henv : envOk env) :
    (tfs_file_write st ubuf count ppos env).ret
      = ((min count (PAGE_SIZE - ubuf % PAGE_SIZE) : Nat) : Int) ∧
    0 ≤ (tfs_file_write st ubuf count ppos env).ret ∧
    (tfs_file_write st ubuf count ppos env).st.xfer_list
      = st.xfer_list ++
        [⟨some st.nextPage, ppos, min count (PAGE_SIZE - ubuf % PAGE_SIZE),
          st.nextPage⟩] := by
  rw [tfs_file_write_success st ubuf count ppos env henv]
  have hc' : ¬ count = 0 := hc.ne'
  simp [expectedItem, hc', clampLen_eq]

/-- C4 witness: a 100-byte write whose buffer sits 6 bytes from the end of
its page is truncated to 6 bytes and still reported as success. -/
theorem C4_write_clamps_to_unit_witness :
    (tfs_file_write st0 4090 100 0 envZC).ret = 6 ∧
    0 ≤ (tfs_file_write st0 4090 100 0 envZC).ret := by
  have h := C4_write_clamps_to_unit st0 4090 100 0 envZC (by decide) (by decide)
  exact ⟨h.1.trans (by decide), h.2.1⟩

/-- C5: on every producer error path of a non-zero write (transfer
structure allocation failure, pin failure in zero-copy mode, page
allocation or copy failure in fallback mode) the call returns a negative
error synchronously without touching any state, so no item is ever
partially enqueued; the error is the out-of-memory or fault code, or the
negative errno the pin itself reported. -/
theorem C5_producer_error_paths (st : TfsState) (ubuf count : Nat)
    (ppos : Int) (env : WriteEnv) (hc : 0 < count)
    (hacc : env.accessOk = true)
    (hfail : env.xferAllocOk = false ∨
      (env.enable_zero_copy = true ∧ env.pinRet ≠ 1) ∨
      (env.enable_zero_copy = false ∧
        (env.pageAllocOk = false ∨ env.copyOk = false))) :
    (tfs_file_write st ubuf count ppos env).st = st ∧
    (tfs_file_write st ubuf count ppos env).ret < 0 ∧
    ((tfs_file_write st ubuf count ppos env).ret = -ENOMEM ∨
      (tfs_file_write st ubuf count ppos env).ret = -EFAULT ∨
      ((tfs_file_write st ubuf count ppos env).ret = env.pinRet ∧
        env.pinRet < 0)) := by
  have hc' : ¬ count = 0 := hc.ne'
  by_cases ha : env.xferAllocOk = false
  · refine ⟨?_, ?_, Or.inl ?_⟩ <;>
      simp [tfs_file_write, hc', hacc, ha, ENOMEM]
  · have ha' : env.xferAllocOk = true := by simpa using ha
    rcases hfail with hf | ⟨hzc, hpin⟩ | ⟨hzc, hf⟩
    · exact absurd hf (by simp [ha'])
    · by_cases hneg : env.pinRet < 0
      · refine ⟨?_, ?_, Or.inr (Or.inr ⟨?_, hneg⟩)⟩ <;>
          simp [tfs_file_write, hc', hacc, ha', hzc, hneg, hpin]
      · refine ⟨?_, ?_, Or.inr (Or.inl ?_)⟩ <;>
          simp [tfs_file_write, hc', hacc, ha', hzc, hneg, hpin, EFAULT]
    · rcases hf with hf | hf
      · refine ⟨?_, ?_, Or.inl ?_⟩ <;>
          simp [tfs_file_write, hc', hacc, ha', hzc, hf, ENOMEM]
      · by_cases hpa : env.pageAllocOk = false
        · refine ⟨?_, ?_, Or.inl ?_⟩ <;>
            simp [tfs_file_write, hc', hacc, ha', hzc, hpa, ENOMEM]
        · refine ⟨?_, ?_, Or.inr (Or.inl ?_)⟩ <;>
            simp [tfs_file_write, hc', hacc, ha', hzc, hpa, hf, EFAULT]

/-- C5 witness: a 5-byte write whose transfer-structure allocation fails
returns an error and leaves the pristine state untouched. -/
theorem C5_producer_error_paths_witness :
    (tfs_file_write st0 0 5 0 ⟨false, true, true, 1, true, true⟩).st = st0 ∧
    (tfs_file_write st0 0 5 0 ⟨false, true, true, 1, true, true⟩).ret < 0 := by
  have h := C5_producer_error_paths st0 0 5 0 ⟨false, true, true, 1, true, true⟩
    (by decide) rfl (Or.inl rfl)
  exact ⟨h.1, h.2.1⟩

/-- C6: a valid peek returns the head item's metadata snapshot without
modifying any state (so nothing is removed and no memory access granted),
and it reports no-data exactly when the queue is empty. -/
theorem C6_peek_contract (st : TfsState) :
    (tfs_get_xfer_info st true true).1 = st ∧
    (((tfs_get_xfer_info st true true).2.1 = -ENODATA) ↔ st.xfer_list = []) ∧
    ∀ x xs, st.xfer_list = x :: xs →
      tfs_get_xfer_info st true true = (st, 0, some (xferInfoOf x)) := by
  refine ⟨?_, ?_, ?_⟩
  · cases hl : st.xfer_list <;> simp [tfs_get_xfer_info, hl]
  · cases hl : st.xfer_list <;> simp [tfs_get_xfer_info, hl, ENODATA]
  · intro x xs hl
    simp [tfs_get_xfer_info, hl, xferInfoOf]

/-- A one-item queue used to exercise the peek contract. -/
def stPeek : TfsState := ⟨[⟨some 7, 3, 5, 7⟩], fun _ => 0, 8, none, []⟩

/-- C6 witness: peeking a one-item queue returns its snapshot and leaves
the state alone; the same state is returned unchanged. -/
theorem C6_peek_contract_witness :
    tfs_get_xfer_info stPeek true true = (stPeek, 0, some ⟨3, 5, 7⟩) := by
  have h := (C6_peek_contract stPeek).2.2 ⟨some 7, 3, 5, 7⟩ [] rfl
  simpa [xferInfoOf] using h

/-- C7: the daemon clamps an oversized head to its 100 MB policy ceiling
instead of refusing to issue the request, and any mapping request larger
than one page — in particular every request for a head item larger than
one memory unit — is rejected by the kernel with the invalid-argument
error, leaving the state untouched. -/
theorem C7_oversize_map_rejected (st : TfsState) (x : tfs_xfer) (rr : Int)
    (hx : st.xfer_list.head? = some x) (hs : PAGE_SIZE < x.size) :
    daemonMapSize x.size = min x.size (100 * 1024 * 1024) ∧
    PAGE_SIZE < daemonMapSize x.size ∧
    tfsd_map_attempt st rr = (st, -EINVAL) := by
  have hceil : PAGE_SIZE < daemonMapSize x.size := by
    unfold daemonMapSize
    unfold PAGE_SIZE at *
    omega
  refine ⟨rfl, hceil, ?_⟩
  have halign : daemonMapSize x.size ≤ pageAlign (daemonMapSize x.size) := by
    unfold pageAlign
    have h1 := Nat.div_add_mod (daemonMapSize x.size + PAGE_SIZE - 1) PAGE_SIZE
    have h2 := Nat.mod_lt (daemonMapSize x.size + PAGE_SIZE - 1)
      (y := PAGE_SIZE) (by decide)
    unfold PAGE_SIZE at *
    omega
  have hbig : PAGE_SIZE < pageAlign (daemonMapSize x.size) :=
    lt_of_lt_of_le hceil halign
  have hatt : tfsd_map_attempt st rr
      = tfs_mmap st (pageAlign (daemonMapSize x.size)) rr := by
    unfold tfsd_map_attempt
    rw [hx]
  rw [hatt]
  unfold tfs_mmap
  rw [if_pos (Or.inr hbig)]

/-- A queue whose head item claims a 5000-byte payload, larger than one
page. -/
def stBig : TfsState :=
  ⟨[⟨some 0, 0, 5000, 0⟩], fun p => if p = 0 then 1 else 0, 1, none, []⟩

/-- C7 witness: mapping the 5000-byte head is rejected with the
invalid-argument error even though the daemon issued the (clamped)
request. -/
theorem C7_oversize_map_rejected_witness :
    tfsd_map_attempt stBig (-1) = (stBig, -EINVAL) :=
  (C7_oversize_map_rejected stBig ⟨some 0, 0, 5000, 0⟩ (-1) rfl
    (by decide)).2.2

/-- C8: when mapping setup fails after the speculative get_page (a failing
remap_pfn_range), the extra reference is dropped again and the failure is
surfaced, with the whole state — queue, reference counts, session pointer,
exposures — exactly as before, so the consumer may retry or release. -/
theorem C8_map_failure_releases_ref (st : TfsState) (x : tfs_xfer)
    (pid : Nat) (vsize : Nat) (rr : Int)
    (hx : st.xfer_list.head? = some x) (hp : x.page = some pid)
    (hv1 : vsize ≠ 0) (hv2 : vsize ≤ PAGE_SIZE) (hrr : rr ≠ 0) :
    tfs_mmap st vsize rr = (st, rr) := by
  cases hl : st.xfer_list with
  | nil => rw [hl] at hx; simp at hx
  | cons y ys =>
    have hyx : y = x := by
      rw [hl] at hx
      simpa using hx
    subst hyx
    have hfun : dropRef (bumpRef st.refcnt pid) pid = st.refcnt := by
      funext q
      by_cases hq : q = pid <;> simp [dropRef, bumpRef, hq]
    simp [tfs_mmap, hl, hv1, Nat.not_lt.mpr hv2, hp, hrr, hfun]
    rw [← hl]

/-- A queue holding one 5-byte item backed by page 0 with one reference. -/
def stOne : TfsState :=
  ⟨[⟨some 0, 0, 5, 0⟩], fun p => if p = 0 then 1 else 0, 1, none, []⟩

/-- C8 witness: a remap failure with the out-of-memory errno is surfaced
verbatim and leaves the one-item state untouched. -/
theorem C8_map_failure_releases_ref_witness :
    tfs_mmap stOne PAGE_SIZE (-ENOMEM) = (stOne, -ENOMEM) :=
  C8_map_failure_releases_ref stOne ⟨some 0, 0, 5, 0⟩ 0 PAGE_SIZE (-ENOMEM)
    rfl rfl (by decide) (by decide) (by decide)

/-- The state after one successful 5-byte write into the pristine
pipeline, used to exercise repeated mapping. -/
def s9 : TfsState := (tfs_file_write st0 0 5 0 envZC).st

/-- C9 counterexample: two map calls against the same head item, with no
unmap or release in between, both succeed; afterwards two zero-copy
exposures of the head item's memory are simultaneously active (and the
page carries both mapping references).  This refutes the claim that map
never succeeds for two concurrent callers against the same head item and
that two exposures are never simultaneously active. -/
theorem C9_counterexample :
    (tfs_mmap s9 PAGE_SIZE 0).2 = 0 ∧
    (tfs_mmap (tfs_mmap s9 PAGE_SIZE 0).1 PAGE_SIZE 0).2 = 0 ∧
    (tfs_mmap (tfs_mmap s9 PAGE_SIZE 0).1 PAGE_SIZE 0).1.mappedVmas.length = 2 ∧
    (tfs_mmap (tfs_mmap s9 PAGE_SIZE 0).1 PAGE_SIZE 0).1.refcnt 0 = 3 := by
  decide

/-- C9 amended: tfs_mmap performs no open-session check, so a map of a
backed head item succeeds — taking a further reference and adding a
further simultaneous exposure — regardless of the exposures already
active or the session pointer already set. -/
theorem C9_second_map_succeeds (st : TfsState) (x : tfs_xfer) (pid : Nat)
    (vsize : Nat) (hx : st.xfer_list.head? = some x)
    (hp : x.page = some pid) (hv1 : vsize ≠ 0) (hv2 : vsize ≤ PAGE_SIZE) :
    (tfs_mmap st vsize 0).2 = 0 ∧
    (tfs_mmap st vsize 0).1.mappedVmas = pid :: st.mappedVmas ∧
    (tfs_mmap st vsize 0).1.refcnt pid = st.refcnt pid + 1 ∧
    (tfs_mmap st vsize 0).1.xfer_list = st.xfer_list := by
  cases hl : st.xfer_list with
  | nil => rw [hl] at hx; simp at hx
  | cons y ys =>
    have hyx : y = x := by
      rw [hl] at hx
      simpa using hx
    subst hyx
    simp [tfs_mmap, hl, hv1, Nat.not_lt.mpr hv2, hp, bumpRef]

/-- C9 witness for the amended statement: applied to the state in which a
first mapping session is already open, the second map still succeeds and
stacks a second exposure. -/
theorem C9_second_map_succeeds_witness :
    (tfs_mmap (tfs_mmap s9 PAGE_SIZE 0).1 PAGE_SIZE 0).2 = 0 ∧
    (tfs_mmap (tfs_mmap s9 PAGE_SIZE 0).1 PAGE_SIZE 0).1.mappedVmas
      = 0 :: (tfs_mmap s9 PAGE_SIZE 0).1.mappedVmas := by
  have h := C9_second_map_succeeds (tfs_mmap s9 PAGE_SIZE 0).1
    ⟨some 0, 0, 5, 0⟩ 0 PAGE_SIZE (by decide) (by decide) (by decide)
    (by decide)
  exact ⟨h.1, h.2.1⟩

/-- C10: no capacity bound is enforced on enqueue: a well-formed write
succeeds and appends its item for every queue state, in particular also
when the queue already holds the declared maximum or more. -/
theorem C10_unbounded_enqueue (st : TfsState) (ubuf count : Nat)
    (ppos : Int) (env : WriteEnv) (henv : envOk env) :
    0 ≤ (tfs_file_write st ubuf count ppos env).ret ∧
    (tfs_file_write st ubuf count ppos env).st.xfer_list
      = st.xfer_list ++ [expectedItem st.nextPage ubuf count ppos] ∧
    (MAX_QUEUE_SIZE ≤ st.xfer_list.length →
      0 ≤ (tfs_file_write st ubuf count ppos env).ret ∧
      (tfs_file_write st ubuf count ppos env).st.xfer_list.length
        = st.xfer_list.length + 1) := by
  rw [tfs_file_write_success st ubuf count ppos env henv]
  have hret : (0:Int) ≤ if count = 0 then 0 else (clampLen ubuf count : Int) := by
    split
    · exact le_refl 0
    · exact Int.natCast_nonneg _
  exact ⟨hret, rfl, fun _ => ⟨hret, by simp⟩⟩

/-- A queue already filled to the declared maximum with marker items. -/
def stFull : TfsState :=
  ⟨List.replicate MAX_QUEUE_SIZE (⟨none, 0, 0, 0⟩ : tfs_xfer),
    fun _ => 0, 0, none, []⟩

/-- C10 witness: with the queue at the declared maximum of 128 items, a
5-byte write still succeeds and grows the queue to 129. -/
theorem C10_unbounded_enqueue_witness :
    MAX_QUEUE_SIZE ≤ stFull.xfer_list.length ∧
    0 ≤ (tfs_file_write stFull 0 5 0 envZC).ret ∧
    (tfs_file_write stFull 0 5 0 envZC).st.xfer_list.length
      = stFull.xfer_list.length + 1 := by
  have hlen : MAX_QUEUE_SIZE ≤ stFull.xfer_list.length := by
    simp [stFull]
  have h := (C10_unbounded_enqueue stFull 0 5 0 envZC (by decide)).2.2 hlen
  exact ⟨hlen, h.1, h.2⟩

end TFS
